import Mathlib

/-!
The carousel loader script, assets/js/works.js.

The script is a single statement: it declares the constant mySwiper and
initialises it with a new Swiper built from the selector string
".swiper-container" and an object literal of options.

It is embedded here as the function works, which runs that statement against
an environment made of

* a heap of mutable JavaScript objects (object literals allocate on it),
* an abstract page state σ (DOM contents and every other piece of global state),
* what the identifier Swiper resolves to in that page, and
* the realm intrinsics that build the errors the engine itself raises.

The external widget constructor is not part of the repository: it is an
arbitrary function of its arguments, the heap and the page, and the theorems
quantify over it.

The function works is the evaluation of the statement.  Loading the script
into a global scope comes first and is the function runScript: the top-level
declaration of mySwiper is instantiated before anything is evaluated, and that
is an early SyntaxError, with nothing evaluated, when the name is already taken
in the scope.
-/

namespace Works

/-! ## Values, object literals and the heap -/

/-- Runtime values: primitives, and references to heap objects. -/
inductive JsValue where
  | bool (b : Bool)
  | num (n : Int)
  | str (s : String)
  | ref (addr : Nat)
deriving DecidableEq, Repr

/-- Literal expressions of the script: primitive literals and object literals
(a property list in source order).  The same trees serve as the deep contents
of a value read back from the heap. -/
inductive Lit where
  | bool (b : Bool)
  | num (n : Int)
  | str (s : String)
  | obj (props : List (String × Lit))
deriving Repr

/-- An object: its own properties, in insertion order. -/
abbrev JsObject := List (String × JsValue)

/-- The heap: the object at address `a` is the `a`-th entry. -/
abbrev Heap := List JsObject

/-- CreateDataProperty on one object: overwrite the value of an existing key in
place, otherwise append the new property. -/
def setProp (o : JsObject) (k : String) (v : JsValue) : JsObject :=
  match o with
  | [] => [(k, v)]
  | (k0, v0) :: rest => if k0 = k then (k, v) :: rest else (k0, v0) :: setProp rest k v

/-- Apply `f` to the object stored at address `a`; other addresses are untouched. -/
def updateAt (h : Heap) (a : Nat) (f : JsObject → JsObject) : Heap :=
  match h, a with
  | [], _ => []
  | o :: rest, 0 => f o :: rest
  | o :: rest, n + 1 => o :: updateAt rest n f

mutual
/-- Evaluate a literal expression.  An object literal first allocates a fresh
empty object at the next free address, then evaluates and defines its
properties one after the other, in source order. -/
def evalLit : Lit → Heap → JsValue × Heap
  | .bool b, h => (.bool b, h)
  | .num n, h => (.num n, h)
  | .str s, h => (.str s, h)
  | .obj ps, h => (.ref h.length, evalProps ps h.length (h ++ [[]]))
/-- Evaluate the property definitions of an object literal into the object at
address `a`. -/
def evalProps : List (String × Lit) → Nat → Heap → Heap
  | [], _, h => h
  | (k, v) :: rest, a, h =>
    let r := evalLit v h
    evalProps rest a (updateAt r.2 a (fun o => setProp o k r.1))
end

/-- Evaluate an argument list, left to right. -/
def evalArgs : List Lit → Heap → List JsValue × Heap
  | [], h => ([], h)
  | a :: rest, h =>
    let r := evalLit a h
    let rs := evalArgs rest r.2
    (r.1 :: rs.1, rs.2)

/-- The object stored at an address, if the address is allocated. -/
def objectAt : Heap → Nat → Option JsObject
  | [], _ => none
  | o :: _, 0 => some o
  | _ :: rest, n + 1 => objectAt rest n

/-- Read every property value of an object with `f`; fails when one of them does. -/
def readProps (f : JsValue → Option Lit) : JsObject → Option (List (String × Lit))
  | [] => some []
  | (k, v) :: rest =>
    match f v, readProps f rest with
    | some x, some xs => some ((k, x) :: xs)
    | _, _ => none

/-- Read a value back from the heap as a tree, following references at most
`fuel` levels deep (the heap may be cyclic). -/
def reify : Nat → Heap → JsValue → Option Lit
  | _, _, .bool b => some (.bool b)
  | _, _, .num n => some (.num n)
  | _, _, .str s => some (.str s)
  | 0, _, .ref _ => none
  | fuel + 1, h, .ref a =>
    match objectAt h a with
    | none => none
    | some o => (readProps (reify fuel h) o).map Lit.obj

/-- Deep contents of a value in a heap; references are followed to a depth
of one more than the number of objects in the heap. -/
def deepValue (h : Heap) (v : JsValue) : Option Lit :=
  reify (h.length + 1) h v

/-- Own property names of an object tree, in order (empty for a primitive). -/
def Lit.keys : Lit → List String
  | .obj ps => ps.map Prod.fst
  | _ => []

/-- Own property lookup on a tree. -/
def Lit.get? : Lit → String → Option Lit
  | .obj ps, k => ps.lookup k
  | _, _ => none

/-- Follow a path of property names, as in `cfg.autoplay.delay`. -/
def Lit.getPath : Lit → List String → Option Lit
  | t, [] => some t
  | t, k :: rest =>
    match t.get? k with
    | none => none
    | some t1 => Lit.getPath t1 rest

mutual
/-- Every string that occurs as a value anywhere in a tree, in source order. -/
def Lit.strings : Lit → List String
  | .str s => [s]
  | .obj ps => Lit.stringsOfProps ps
  | _ => []
/-- Strings of a property list. -/
def Lit.stringsOfProps : List (String × Lit) → List String
  | [] => []
  | (_, v) :: rest => Lit.strings v ++ Lit.stringsOfProps rest
end

/-! ## The environment of the script -/

/-- What an identifier resolves to when the script looks it up. -/
inductive Binding (κ : Type) where
  | unresolvable
  | nonConstructor
  | constructor (c : κ)

/-- Errors the engine itself raises, as values of the type `ε` of thrown values. -/
structure Realm (ε : Type) where
  referenceError : String → ε
  typeError : String → ε

/-- An external constructor: from the argument values, the heap and the page it
yields an instance or throws, and leaves a new heap and page behind. -/
abbrev Ctor (σ ε ι : Type) := List JsValue → Heap → σ → Except ε ι × Heap × σ

/-- How the script completes: normally, with the constant `mySwiper`
initialised, or abruptly with a thrown value and `mySwiper` never initialised. -/
inductive Completion (ε ι : Type) where
  | normal (mySwiper : ι)
  | throw (fault : ε)

/-- Final state of a run of the script. -/
structure Outcome (σ ε ι : Type) where
  completion : Completion ε ι
  heap : Heap
  page : σ

/-- The completion of `const x = e` from the result of evaluating `e`: there is
no handler, so a thrown value passes through as it is. -/
def Completion.ofResult {ε ι : Type} : Except ε ι → Completion ε ι
  | .ok inst => .normal inst
  | .error e => .throw e

/-- Whether a completion is normal. -/
def Completion.isNormal {ε ι : Type} : Completion ε ι → Bool
  | .normal _ => true
  | .throw _ => false

/-- Evaluation of `new F(args)`: resolve `F` first (a ReferenceError when it is
unresolvable), then evaluate the arguments, then check that the callee is a
constructor (a TypeError otherwise), then construct. -/
def evalNew {σ ε ι : Type} (realm : Realm ε) (name : String)
    (callee : Binding (Ctor σ ε ι)) (args : List Lit) (heap : Heap) (page : σ) :
    Except ε ι × Heap × σ :=
  match callee with
  | .unresolvable => (.error (realm.referenceError name), heap, page)
  | .nonConstructor => (.error (realm.typeError name), (evalArgs args heap).2, page)
  | .constructor c => c (evalArgs args heap).1 (evalArgs args heap).2 page

/-! ## The script -/

/-- The object literal of `works.js`, lines 1 to 16 (second argument). -/
def carouselConfig : Lit :=
  .obj
    [ ("loop", .bool true),
      ("autoplay", .obj
        [ ("delay", .num 2500),
          ("stopOnLastSlide", .bool false),
          ("disableOnInteraction", .bool false) ]),
      ("navigation", .obj
        [ ("nextEl", .str ".swiper-button-next"),
          ("prevEl", .str ".swiper-button-prev") ]),
      ("pagination", .obj
        [ ("el", .str ".swiper-pagination"),
          ("clickable", .bool true) ]) ]

/-- The script `works.js`: the declaration of the constant `mySwiper`,
initialised with `new Swiper(".swiper-container", carouselConfig)`, run in a
page where the identifier `Swiper` resolves to the binding `Swiper`. -/
def works {σ ε ι : Type} (realm : Realm ε) (Swiper : Binding (Ctor σ ε ι))
    (heap : Heap) (page : σ) : Outcome σ ε ι :=
  let r := evalNew realm "Swiper" Swiper [.str ".swiper-container", carouselConfig] heap page
  ⟨Completion.ofResult r.1, r.2.1, r.2.2⟩

/-! ## Observing the constructor -/

/-- One recorded constructor call: what the constructor received (argument
values, the heap and the page at that moment) and what it gave back. -/
structure Call (σ ε ι : Type) where
  args : List JsValue
  heap : Heap
  page : σ
  result : Except ε ι
  heapAfter : Heap
  pageAfter : σ

/-- Instrument a constructor: it behaves as `c` does on the page and appends a
record of the call to a log kept next to the page. -/
def recording {σ ε ι : Type} (c : Ctor σ ε ι) : Ctor (σ × List (Call σ ε ι)) ε ι :=
  fun args heap st =>
    let r := c args heap st.1
    (r.1, r.2.1, (r.2.2, st.2 ++ [⟨args, heap, st.1, r.1, r.2.1, r.2.2⟩]))

/-- Instrument whatever the identifier resolves to. -/
def Binding.recorded {σ ε ι : Type} :
    Binding (Ctor σ ε ι) → Binding (Ctor (σ × List (Call σ ε ι)) ε ι)
  | .unresolvable => .unresolvable
  | .nonConstructor => .nonConstructor
  | .constructor c => .constructor (recording c)

/-- Whether an identifier resolves to a constructor. -/
def Binding.isConstructor {κ : Type} : Binding κ → Bool
  | .constructor _ => true
  | _ => false

/-- Every string handed over in an argument list, directly or inside an object
argument, read from the heap: the CSS selectors the widget will look up. -/
def selectorsHanded (args : List JsValue) (heap : Heap) : List String :=
  (args.map (deepValue heap)).flatMap (fun t => match t with
    | some x => x.strings
    | none => [])

/-- The argument list of a call, each argument read back from the heap the
constructor was handed. -/
def Call.deepArgs {σ ε ι : Type} (k : Call σ ε ι) : List (Option Lit) :=
  k.args.map (deepValue k.heap)

/-- The selectors handed to the constructor in a recorded call. -/
def Call.selectors {σ ε ι : Type} (k : Call σ ε ι) : List String :=
  selectorsHanded k.args k.heap

/-- Run the script with the constructor instrumented, from an empty log. -/
def trace {σ ε ι : Type} (realm : Realm ε) (Swiper : Binding (Ctor σ ε ι))
    (heap : Heap) (page : σ) : Outcome (σ × List (Call σ ε ι)) ε ι :=
  works realm Swiper.recorded heap (page, [])

/-- The calls recorded during a run. -/
def Outcome.calls {σ ε ι : Type} (out : Outcome (σ × List (Call σ ε ι)) ε ι) :
    List (Call σ ε ι) :=
  out.page.2

/-! ## Loading the script into a global scope -/

/-- The names the script declares at top level: the constant `mySwiper`. -/
def declaredNames : List String := ["mySwiper"]

/-- Loading and running `works.js` as a classic script.  The list `scope` holds
the names already taken in the global scope (those with a var, function or
lexical declaration, and the restricted global properties).  Declarations are
instantiated first: when `mySwiper` is taken the script fails with the
SyntaxError `syntaxError "mySwiper"` before anything is evaluated.  Otherwise
the name is declared, and stays declared however the statement ends, and the
statement is evaluated by `works`. -/
def runScript {σ ε ι : Type} (realm : Realm ε) (syntaxError : String → ε)
    (scope : List String) (Swiper : Binding (Ctor σ ε ι)) (heap : Heap) (page : σ) :
    Outcome σ ε ι × List String :=
  if "mySwiper" ∈ scope then (⟨.throw (syntaxError "mySwiper"), heap, page⟩, scope)
  else (works realm Swiper heap page, scope ++ declaredNames)

/-- Load and run the script with the constructor instrumented, from an empty log. -/
def traceScript {σ ε ι : Type} (realm : Realm ε) (syntaxError : String → ε)
    (scope : List String) (Swiper : Binding (Ctor σ ε ι)) (heap : Heap) (page : σ) :
    Outcome (σ × List (Call σ ε ι)) ε ι × List String :=
  runScript realm syntaxError scope Swiper.recorded heap (page, [])

/-- Whether every argument of a list can be read back from the heap in full. -/
def argsReadable (args : List JsValue) (heap : Heap) : Bool :=
  (args.map (deepValue heap)).all Option.isSome

/-! ## A small concrete browser, for closed examples -/

/-- A page given by the class names each of its elements carries. -/
abbrev SamplePage := List (List String)

/-- Class-selector matching on a sample page: `.name` matches an element that
carries the class `name`. -/
def sampleMatches (page : SamplePage) (sel : String) : Bool :=
  page.any (fun classes => classes.any (fun cl => "." ++ cl == sel))

/-- Engine errors rendered as their messages. -/
def sampleRealm : Realm String :=
  ⟨fun name => name ++ " is not defined", fun name => name ++ " is not a constructor"⟩

/-- The early error for a name that is already declared, as its message. -/
def sampleSyntaxError (name : String) : String :=
  "Identifier " ++ name ++ " has already been declared"

/-- A widget constructor that looks up every selector it is handed and throws
when one of them matches no element. -/
def strictSwiper : Ctor SamplePage String Nat :=
  fun args heap page =>
    if (selectorsHanded args heap).all (sampleMatches page) then (.ok 1, heap, page)
    else (.error "element not found", heap, page)

/-- A widget constructor whose initialisation always fails. -/
def brokenSwiper : Ctor SamplePage String Nat :=
  fun _ heap page => (.error "initialisation failed", heap, page)

/-- A page with the container, both arrows and the pagination host. -/
def fullPage : SamplePage :=
  [["swiper-container"], ["swiper-button-next"], ["swiper-button-prev"], ["swiper-pagination"]]

/-- A page with the arrows and the pagination host but no container. -/
def pageWithoutContainer : SamplePage :=
  [["swiper-button-next"], ["swiper-button-prev"], ["swiper-pagination"]]

/-- The four selectors the page is expected to provide elements for. -/
def expectedSelectors : List String :=
  [".swiper-container", ".swiper-button-next", ".swiper-button-prev", ".swiper-pagination"]

/-- The four objects the configuration literal allocates on a heap whose next
free address is `a`: the record itself, then `autoplay`, `navigation` and
`pagination`. -/
def configObjects (a : Nat) : List JsObject :=
  [ [ ("loop", .bool true), ("autoplay", .ref (a + 1)), ("navigation", .ref (a + 2)),
      ("pagination", .ref (a + 3)) ],
    [ ("delay", .num 2500), ("stopOnLastSlide", .bool false),
      ("disableOnInteraction", .bool false) ],
    [ ("nextEl", .str ".swiper-button-next"), ("prevEl", .str ".swiper-button-prev") ],
    [ ("el", .str ".swiper-pagination"), ("clickable", .bool true) ] ]

/-- The record of the one call the script makes when `Swiper` is the constructor `c`. -/
def theCall {σ ε ι : Type} (c : Ctor σ ε ι) (heap : Heap) (page : σ) : Call σ ε ι :=
  ⟨[.str ".swiper-container", .ref heap.length], heap ++ configObjects heap.length, page,
    (c [.str ".swiper-container", .ref heap.length] (heap ++ configObjects heap.length) page).1,
    (c [.str ".swiper-container", .ref heap.length] (heap ++ configObjects heap.length) page).2.1,
    (c [.str ".swiper-container", .ref heap.length] (heap ++ configObjects heap.length) page).2.2⟩

/-! ## Heap lemmas -/

theorem updateAt_append_length (h t : Heap) (k : Nat) (f : JsObject → JsObject) :
    updateAt (h ++ t) (h.length + k) f = h ++ updateAt t k f := by
  induction h with
  | nil => simp
  | cons o rest ih =>
    have e : (o :: rest).length + k = (rest.length + k) + 1 := by simp; omega
    rw [e]
    simp [updateAt, ih]

theorem updateAt_append_length_zero (h t : Heap) (f : JsObject → JsObject) :
    updateAt (h ++ t) h.length f = h ++ updateAt t 0 f := by
  simpa using updateAt_append_length h t 0 f

theorem objectAt_append_length (h t : Heap) (k : Nat) :
    objectAt (h ++ t) (h.length + k) = objectAt t k := by
  induction h with
  | nil => simp
  | cons o rest ih =>
    have e : (o :: rest).length + k = (rest.length + k) + 1 := by simp; omega
    rw [e]
    simp [objectAt, ih]

theorem objectAt_append_length_zero (h t : Heap) :
    objectAt (h ++ t) h.length = objectAt t 0 := by
  simpa using objectAt_append_length h t 0

theorem evalLit_carouselConfig (h : Heap) :
    evalLit carouselConfig h = (.ref h.length, h ++ configObjects h.length) := by
  simp [carouselConfig, evalLit, evalProps, configObjects, updateAt_append_length,
    updateAt_append_length_zero, updateAt, setProp]

theorem deepValue_carouselConfig (h : Heap) :
    deepValue (h ++ configObjects h.length) (.ref h.length) = some carouselConfig := by
  simp [deepValue, configObjects, reify, objectAt_append_length, objectAt_append_length_zero,
    objectAt, readProps, carouselConfig]

theorem deepValue_str (h : Heap) (s : String) : deepValue h (.str s) = some (.str s) := by
  simp [deepValue, reify]

theorem evalArgs_works (h : Heap) :
    evalArgs [.str ".swiper-container", carouselConfig] h
      = ([.str ".swiper-container", .ref h.length], h ++ configObjects h.length) := by
  simp only [evalArgs, evalLit_carouselConfig]
  simp [evalLit]

theorem trace_constructor {σ ε ι : Type} (realm : Realm ε) (c : Ctor σ ε ι) (heap : Heap)
    (page : σ) :
    trace realm (.constructor c) heap page
      = ⟨Completion.ofResult (theCall c heap page).result, (theCall c heap page).heapAfter,
          ((theCall c heap page).pageAfter, [theCall c heap page])⟩ := by
  simp [trace, works, Binding.recorded, evalNew, recording, evalArgs_works, theCall]

theorem works_constructor {σ ε ι : Type} (realm : Realm ε) (c : Ctor σ ε ι) (heap : Heap)
    (page : σ) :
    works realm (.constructor c) heap page
      = ⟨Completion.ofResult (theCall c heap page).result, (theCall c heap page).heapAfter,
          (theCall c heap page).pageAfter⟩ := by
  simp [works, evalNew, evalArgs_works, theCall]

theorem theCall_deepArgs {σ ε ι : Type} (c : Ctor σ ε ι) (heap : Heap) (page : σ) :
    (theCall c heap page).deepArgs
      = [some (.str ".swiper-container"), some carouselConfig] := by
  simp [Call.deepArgs, theCall, deepValue_str, deepValue_carouselConfig]

theorem theCall_selectors {σ ε ι : Type} (c : Ctor σ ε ι) (heap : Heap) (page : σ) :
    selectorsHanded (theCall c heap page).args (theCall c heap page).heap
      = expectedSelectors := by
  have h := theCall_deepArgs c heap page
  simp only [Call.deepArgs] at h
  simp only [selectorsHanded, h]
  rfl

theorem trace_unresolvable {σ ε ι : Type} (realm : Realm ε) (heap : Heap) (page : σ) :
    trace realm (Binding.unresolvable : Binding (Ctor σ ε ι)) heap page
      = ⟨.throw (realm.referenceError "Swiper"), heap, (page, [])⟩ := by
  simp [trace, works, Binding.recorded, evalNew, Completion.ofResult]

theorem trace_nonConstructor {σ ε ι : Type} (realm : Realm ε) (heap : Heap) (page : σ) :
    trace realm (Binding.nonConstructor : Binding (Ctor σ ε ι)) heap page
      = ⟨.throw (realm.typeError "Swiper"), heap ++ configObjects heap.length, (page, [])⟩ := by
  simp [trace, works, Binding.recorded, evalNew, Completion.ofResult, evalArgs_works]

/-- Instrumenting the constructor does not change what the script does. -/
theorem trace_erase {σ ε ι : Type} (realm : Realm ε) (b : Binding (Ctor σ ε ι)) (heap : Heap)
    (page : σ) :
    works realm b heap page
      = ⟨(trace realm b heap page).completion, (trace realm b heap page).heap,
          (trace realm b heap page).page.1⟩ := by
  cases b <;> simp [trace, works, Binding.recorded, evalNew, recording]

/-! ## The claims -/

/-- C1: one run of the script over a recording constructor makes exactly one
constructor call; its first argument is the selector `.swiper-container` and
its second argument is a record with exactly the fields `loop`, `autoplay`,
`navigation` and `pagination`, whose values and sub-fields are the documented
ones and no others. -/
theorem works_calls_constructor_once_with_config {σ ε ι : Type} (realm : Realm ε)
    (c : Ctor σ ε ι) (heap : Heap) (page : σ) :
    ∃ call cfg, (trace realm (.constructor c) heap page).calls = [call]
      ∧ call.deepArgs = [some (.str ".swiper-container"), some cfg]
      ∧ cfg.keys = ["loop", "autoplay", "navigation", "pagination"]
      ∧ cfg.getPath ["loop"] = some (.bool true)
      ∧ (cfg.getPath ["autoplay"]).map Lit.keys
          = some ["delay", "stopOnLastSlide", "disableOnInteraction"]
      ∧ cfg.getPath ["autoplay", "delay"] = some (.num 2500)
      ∧ cfg.getPath ["autoplay", "stopOnLastSlide"] = some (.bool false)
      ∧ cfg.getPath ["autoplay", "disableOnInteraction"] = some (.bool false)
      ∧ (cfg.getPath ["navigation"]).map Lit.keys = some ["nextEl", "prevEl"]
      ∧ cfg.getPath ["navigation", "nextEl"] = some (.str ".swiper-button-next")
      ∧ cfg.getPath ["navigation", "prevEl"] = some (.str ".swiper-button-prev")
      ∧ (cfg.getPath ["pagination"]).map Lit.keys = some ["el", "clickable"]
      ∧ cfg.getPath ["pagination", "el"] = some (.str ".swiper-pagination")
      ∧ cfg.getPath ["pagination", "clickable"] = some (.bool true) := by
  refine ⟨theCall c heap page, carouselConfig, ?_, theCall_deepArgs c heap page, ?_⟩
  · rw [trace_constructor]; rfl
  · exact ⟨rfl, rfl, rfl, rfl, rfl, rfl, rfl, rfl, rfl, rfl, rfl, rfl⟩

/-- C2: the script takes no input.  Whatever the two page states are (heap,
page, and what `Swiper` resolves to), the run makes one call when `Swiper` is a
constructor and none otherwise, every argument handed over is read back in
full, and whenever both runs make a call the argument lists are equal field
for field. -/
theorem works_arguments_same_in_every_page_state {σ ε ι : Type} (realm₁ realm₂ : Realm ε)
    (b₁ b₂ : Binding (Ctor σ ε ι)) (heap₁ heap₂ : Heap) (page₁ page₂ : σ) :
    (trace realm₁ b₁ heap₁ page₁).calls.length = (if b₁.isConstructor then 1 else 0)
      ∧ (trace realm₂ b₂ heap₂ page₂).calls.length = (if b₂.isConstructor then 1 else 0)
      ∧ ((trace realm₁ b₁ heap₁ page₁).calls.map Call.deepArgs).all
          (fun deep => deep.all Option.isSome) = true
      ∧ ((trace realm₁ b₁ heap₁ page₁).calls = []
          ∨ (trace realm₂ b₂ heap₂ page₂).calls = []
          ∨ (trace realm₁ b₁ heap₁ page₁).calls.map Call.deepArgs
              = (trace realm₂ b₂ heap₂ page₂).calls.map Call.deepArgs) := by
  cases b₁ <;> cases b₂ <;>
    simp [trace_unresolvable, trace_nonConstructor, trace_constructor, Outcome.calls,
      Binding.isConstructor, theCall_deepArgs]

/-- C3: no error is handled locally.  The script calls the constructor once (no
retry); if that call throws a value the script throws that same value, and if
it returns an instance the script completes normally, with `mySwiper` bound to
that instance. -/
theorem works_propagates_constructor_result {σ ε ι : Type} (realm : Realm ε)
    (c : Ctor σ ε ι) (heap : Heap) (page : σ) :
    ∃ call, (trace realm (.constructor c) heap page).calls = [call]
      ∧ c call.args call.heap page = (call.result, call.heapAfter, call.pageAfter)
      ∧ (∀ e, call.result = .error e →
          (works realm (.constructor c) heap page).completion = Completion.throw e)
      ∧ (∀ inst, call.result = .ok inst →
          (works realm (.constructor c) heap page).completion = Completion.normal inst) := by
  refine ⟨theCall c heap page, ?_, rfl, ?_, ?_⟩
  · rw [trace_constructor]; rfl
  · intro e h
    rw [works_constructor]
    simp [Completion.ofResult, h]
  · intro inst h
    rw [works_constructor]
    simp [Completion.ofResult, h]

/-- C4: the configuration record is built once and handed over untouched.  The
one call receives the reference the literal evaluated to together with exactly
the heap the evaluation of the literal left, in which that reference still
reads as the literal; the record is an argument of no other call; and after
the call the script writes nothing: the final heap is the one the constructor
left. -/
theorem works_config_unmodified_and_consumed_once {σ ε ι : Type} (realm : Realm ε)
    (c : Ctor σ ε ι) (heap : Heap) (page : σ) :
    ∃ call, (trace realm (.constructor c) heap page).calls = [call]
      ∧ call.args = [.str ".swiper-container", (evalLit carouselConfig heap).1]
      ∧ call.heap = (evalLit carouselConfig heap).2
      ∧ deepValue call.heap (evalLit carouselConfig heap).1 = some carouselConfig
      ∧ call.args.count (evalLit carouselConfig heap).1 = 1
      ∧ (trace realm (.constructor c) heap page).heap = call.heapAfter := by
  refine ⟨theCall c heap page, ?_, ?_, ?_, ?_, ?_, ?_⟩
  · rw [trace_constructor]; rfl
  · rw [evalLit_carouselConfig]; rfl
  · rw [evalLit_carouselConfig]; rfl
  · rw [evalLit_carouselConfig]; exact deepValue_carouselConfig heap
  · rw [evalLit_carouselConfig]; simp [theCall]
  · rw [trace_constructor]



theorem strictSwiper_honours_selectors (p : SamplePage) (args : List JsValue) (h : Heap)
    (_hread : argsReadable args h = true)
    (hall : (selectorsHanded args h).all (sampleMatches p) = true) :
    (strictSwiper args h p).1.isOk = true := by
  simp only [strictSwiper, hall, if_true]
  rfl

theorem traceScript_fresh {σ ε ι : Type} (realm : Realm ε) (syntaxError : String → ε)
    (scope : List String) (b : Binding (Ctor σ ε ι)) (heap : Heap) (page : σ)
    (hfresh : "mySwiper" ∉ scope) :
    traceScript realm syntaxError scope b heap page
      = (trace realm b heap page, scope ++ declaredNames) := by
  simp [traceScript, runScript, trace, hfresh]

theorem traceScript_taken {σ ε ι : Type} (realm : Realm ε) (syntaxError : String → ε)
    (scope : List String) (b : Binding (Ctor σ ε ι)) (heap : Heap) (page : σ)
    (htaken : "mySwiper" ∈ scope) :
    traceScript realm syntaxError scope b heap page
      = (⟨.throw (syntaxError "mySwiper"), heap, (page, [])⟩, scope) := by
  simp [traceScript, runScript, htaken]

/-- Loading the script a second time into the scope the first load left is the
early error: the first load declared `mySwiper`, however its statement ended. -/
theorem runScript_twice {σ ε ι : Type} (realm : Realm ε) (syntaxError : String → ε)
    (scope : List String) (b b₂ : Binding (Ctor σ ε ι)) (heap heap₂ : Heap) (page page₂ : σ) :
    runScript realm syntaxError (runScript realm syntaxError scope b heap page).2 b₂ heap₂ page₂
      = (⟨.throw (syntaxError "mySwiper"), heap₂, page₂⟩,
          (runScript realm syntaxError scope b heap page).2) := by
  by_cases h : "mySwiper" ∈ scope
  · simp [runScript, h]
  · simp [runScript, h, declaredNames]

/-- C5 (as stated, refuted): on a page that has all four expected elements the
script can still throw.  With `mySwiper` already declared in the global scope
it fails with the early SyntaxError and calls nothing, even though the
constructor would succeed; when the widget library did not load it throws a
ReferenceError and calls nothing; and when the constructor it calls throws,
it throws that value. -/
theorem script_can_throw_on_complete_page :
    expectedSelectors.all (sampleMatches fullPage) = true
      ∧ (traceScript sampleRealm sampleSyntaxError ["mySwiper"] (.constructor strictSwiper)
            [] fullPage).1.calls.length = 0
      ∧ (runScript sampleRealm sampleSyntaxError ["mySwiper"] (.constructor strictSwiper)
            [] fullPage).1.completion
          = Completion.throw "Identifier mySwiper has already been declared"
      ∧ (traceScript sampleRealm sampleSyntaxError []
            (Binding.unresolvable : Binding (Ctor SamplePage String Nat))
            [] fullPage).1.calls.length = 0
      ∧ (runScript sampleRealm sampleSyntaxError []
            (Binding.unresolvable : Binding (Ctor SamplePage String Nat))
            [] fullPage).1.completion = Completion.throw "Swiper is not defined"
      ∧ (traceScript sampleRealm sampleSyntaxError [] (.constructor brokenSwiper)
            [] fullPage).1.calls.length = 1
      ∧ (runScript sampleRealm sampleSyntaxError [] (.constructor brokenSwiper)
            [] fullPage).1.completion = Completion.throw "initialisation failed"
      ∧ ¬ ((traceScript sampleRealm sampleSyntaxError ["mySwiper"] (.constructor strictSwiper)
              [] fullPage).1.calls.length = 1
            ∧ (traceScript sampleRealm sampleSyntaxError ["mySwiper"]
              (.constructor strictSwiper) [] fullPage).1.completion.isNormal = true) := by
  refine ⟨by decide, rfl, rfl, rfl, rfl, rfl, rfl, ?_⟩
  rintro ⟨h, -⟩
  exact absurd h (by decide)

/-- C5 (amended): on a page that has elements for the four expected selectors,
loaded into a global scope where `mySwiper` is not yet declared, with `Swiper`
bound to a constructor that on this page returns normally whenever its
arguments can be read in full and every selector among them matches an element
of the page, the script calls the constructor exactly once and throws no
error. -/
theorem script_succeeds_when_selectors_resolve {σ ε ι : Type}
    (matchesSel : σ → String → Bool) (realm : Realm ε) (syntaxError : String → ε)
    (scope : List String) (c : Ctor σ ε ι) (heap : Heap) (page : σ)
    (hfresh : "mySwiper" ∉ scope)
    (hlib : ∀ args h, argsReadable args h = true →
      (selectorsHanded args h).all (matchesSel page) = true → (c args h page).1.isOk = true)
    (hpage : [".swiper-container", ".swiper-button-next", ".swiper-button-prev",
      ".swiper-pagination"].all (matchesSel page) = true) :
    (traceScript realm syntaxError scope (.constructor c) heap page).1.calls.length = 1
      ∧ (traceScript realm syntaxError scope (.constructor c) heap page).1.completion.isNormal
          = true := by
  have hsel := theCall_selectors c heap page
  have hread : argsReadable (theCall c heap page).args (theCall c heap page).heap = true := by
    have hdeep := theCall_deepArgs c heap page
    simp only [Call.deepArgs] at hdeep
    simp [argsReadable, hdeep]
  have hok := hlib (theCall c heap page).args (theCall c heap page).heap hread
    (by rw [hsel]; exact hpage)
  rw [traceScript_fresh realm syntaxError scope _ heap page hfresh, trace_constructor]
  refine ⟨rfl, ?_⟩
  show (Completion.ofResult (theCall c heap page).result).isNormal = true
  have hres : (theCall c heap page).result
      = (c (theCall c heap page).args (theCall c heap page).heap page).1 := rfl
  rw [hres]
  cases h : (c (theCall c heap page).args (theCall c heap page).heap page).1 with
  | ok inst => rfl
  | error e => rw [h] at hok; exact absurd hok (by simp [Except.isOk, Except.toBool])

/-- C5 (amended), instance: the strict sample constructor on the full sample
page, loaded into an empty global scope. -/
theorem script_succeeds_when_selectors_resolve_witness :
    "mySwiper" ∉ ([] : List String)
      ∧ [".swiper-container", ".swiper-button-next", ".swiper-button-prev",
          ".swiper-pagination"].all (sampleMatches fullPage) = true
      ∧ (traceScript sampleRealm sampleSyntaxError [] (.constructor strictSwiper)
            [] fullPage).1.calls.length = 1
      ∧ (traceScript sampleRealm sampleSyntaxError [] (.constructor strictSwiper)
            [] fullPage).1.completion.isNormal = true :=
  ⟨by decide, by decide,
    script_succeeds_when_selectors_resolve sampleMatches sampleRealm sampleSyntaxError []
      strictSwiper [] fullPage (by decide) (strictSwiper_honours_selectors fullPage)
      (by decide)⟩

/-- C6: the strings the script hands to the constructor are exactly the four
selectors, each in its documented role: `.swiper-container` as the container
argument, `.swiper-button-next` as `navigation.nextEl`, `.swiper-button-prev`
as `navigation.prevEl` and `.swiper-pagination` as `pagination.el`.  No other
string is handed over, and the script itself does not touch the page: the
constructor receives the page as the script found it. -/
theorem works_hands_over_exactly_four_selectors {σ ε ι : Type} (realm : Realm ε)
    (c : Ctor σ ε ι) (heap : Heap) (page : σ) :
    ∃ call cfg, (trace realm (.constructor c) heap page).calls = [call]
      ∧ call.deepArgs = [some (.str ".swiper-container"), some cfg]
      ∧ cfg.getPath ["navigation", "nextEl"] = some (.str ".swiper-button-next")
      ∧ cfg.getPath ["navigation", "prevEl"] = some (.str ".swiper-button-prev")
      ∧ cfg.getPath ["pagination", "el"] = some (.str ".swiper-pagination")
      ∧ call.selectors = [".swiper-container", ".swiper-button-next", ".swiper-button-prev",
          ".swiper-pagination"]
      ∧ call.page = page := by
  refine ⟨theCall c heap page, carouselConfig, ?_, theCall_deepArgs c heap page, rfl, rfl, rfl,
    theCall_selectors c heap page, rfl⟩
  rw [trace_constructor]; rfl

/-- C7: the script makes no existence check.  On a page with no element
matching `.swiper-container` it still makes its single call, on the untouched
page, with the selector and the configuration it hands over on any other page,
and the run ends exactly as the constructor ended on that page: same
completion, same heap, same page. -/
theorem works_without_container_defers_to_constructor {σ ε ι : Type}
    (matchesSel : σ → String → Bool) (realm : Realm ε) (c : Ctor σ ε ι) (heap : Heap)
    (page : σ) (_hmissing : matchesSel page ".swiper-container" = false) :
    ∃ call, (trace realm (.constructor c) heap page).calls = [call]
      ∧ call.page = page
      ∧ call.deepArgs = [some (.str ".swiper-container"), some carouselConfig]
      ∧ (∀ (heap₂ : Heap) (page₂ : σ),
          (trace realm (.constructor c) heap₂ page₂).calls.map Call.deepArgs
            = [call.deepArgs])
      ∧ c call.args call.heap page = (call.result, call.heapAfter, call.pageAfter)
      ∧ works realm (.constructor c) heap page
          = ⟨Completion.ofResult call.result, call.heapAfter, call.pageAfter⟩ := by
  refine ⟨theCall c heap page, ?_, rfl, theCall_deepArgs c heap page, ?_, rfl, ?_⟩
  · rw [trace_constructor]; rfl
  · intro heap₂ page₂
    rw [trace_constructor]
    simp [Outcome.calls, theCall_deepArgs]
  · rw [works_constructor]

/-- C7, instance: the strict sample constructor on the sample page that has no
container; the run throws what the constructor throws. -/
theorem works_without_container_defers_to_constructor_witness :
    sampleMatches pageWithoutContainer ".swiper-container" = false
      ∧ ∃ call, (trace sampleRealm (.constructor strictSwiper) [] pageWithoutContainer).calls
            = [call]
          ∧ call.page = pageWithoutContainer
          ∧ call.deepArgs = [some (.str ".swiper-container"), some carouselConfig]
          ∧ (∀ (heap₂ : Heap) (page₂ : SamplePage),
              (trace sampleRealm (.constructor strictSwiper) heap₂ page₂).calls.map Call.deepArgs
                = [call.deepArgs])
          ∧ strictSwiper call.args call.heap pageWithoutContainer
              = (call.result, call.heapAfter, call.pageAfter)
          ∧ works sampleRealm (.constructor strictSwiper) [] pageWithoutContainer
              = ⟨Completion.ofResult call.result, call.heapAfter, call.pageAfter⟩ :=
  ⟨by decide,
    works_without_container_defers_to_constructor sampleMatches sampleRealm strictSwiper []
      pageWithoutContainer (by decide)⟩

end Works
